import Mathlib

/-!
Verification of the crabify terminal client's application state machine and
dispatch pipeline, shallowly embedded from the Rust source.

Conventions of the embedding:
* wall-clock instants (`std::time::Instant`) are modelled as `Nat` milliseconds;
  functions that read the clock take the current instant as an explicit argument;
* `rspotify` model structs keep only the fields the core reads;
* the unbounded IO channel is modelled by returning the list of `IoEvent`s a
  handler sends (in send order);
* machine integers: `u8`/`u32` values are `Nat` with `% 256` / `% 4294967296`
  at the casts and additions where Rust wraps; `i64` milliseconds are `Int`;
  `saturating_sub` on unsigned ints is truncated `Nat` subtraction.
-/

namespace Crabify

/-- Model of `rspotify::model::FullTrack`, restricted to the fields the core reads:
`id : Option<TrackId>` (as a string) and `duration` (milliseconds). -/
structure FullTrack where
  id : Option String
  durationMs : Int
  deriving DecidableEq, Repr

/-- Model of `rspotify::model::FullEpisode`, restricted to the duration field. -/
structure FullEpisode where
  durationMs : Int
  deriving DecidableEq, Repr

/-- Model of `rspotify::model::PlayableItem`: a track or an episode. -/
inductive PlayableItem where
  | track (t : FullTrack)
  | episode (e : FullEpisode)
  deriving DecidableEq, Repr

/-- Model of `rspotify::model::Device`, restricted to `volume_percent : Option<u32>`. -/
structure Device where
  volumePercent : Option Nat
  deriving DecidableEq, Repr

/-- Model of `rspotify::model::CurrentPlaybackContext`, restricted to the fields the
core reads: `device`, `is_playing`, `progress : Option<Duration>` (kept in
milliseconds, the only resolution the code uses) and `item`. -/
structure CurrentPlaybackContext where
  device : Device
  isPlaying : Bool
  progressMs : Option Int
  item : Option PlayableItem
  deriving DecidableEq, Repr

/-- Model of `rspotify::model::SimplifiedPlaylist`, restricted to `id` and `name`. -/
structure SimplifiedPlaylist where
  id : String
  name : String
  deriving DecidableEq, Repr

/-- Model of `rspotify::model::SavedTrack`, restricted to the wrapped track. -/
structure SavedTrack where
  track : FullTrack
  deriving DecidableEq, Repr

/-- The `Screen` enum from src/app.rs. -/
inductive Screen where
  | Library
  | Search
  | LikedSongs
  deriving DecidableEq, Repr

/-- Embedding of `Screen::next` (src/app.rs lines 28-34). -/
def Screen.next : Screen → Screen
  | .Library => .Search
  | .Search => .LikedSongs
  | .LikedSongs => .Library

/-- Embedding of `Screen::prev` (src/app.rs lines 36-42). -/
def Screen.prev : Screen → Screen
  | .Library => .LikedSongs
  | .Search => .Library
  | .LikedSongs => .Search

/-- The `InputMode` enum from src/app.rs. -/
inductive InputMode where
  | Normal
  | Editing
  deriving DecidableEq, Repr

/-- The `Panel` enum from src/app.rs. -/
inductive Panel where
  | Left
  | Right
  deriving DecidableEq, Repr

/-- The `IoEvent` enum from src/action.rs: IO requests sent from the app to the
network handler. -/
inductive IoEvent where
  | FetchNowPlaying
  | PlayPause
  | NextTrack
  | PreviousTrack
  | VolumeUp
  | VolumeDown
  | FetchPlaylists
  | FetchPlaylistTracks (playlistId : String)
  | PlayTrackInContext (contextUri : String) (offset : Nat)
  | PlayTrack (uri : String)
  | Search (query : String)
  | FetchLikedSongs
  | ToggleLike (trackId : String) (currentlyLiked : Bool)
  | FetchDevices
  deriving DecidableEq, Repr

/-- The `Action` enum from src/action.rs: state-update messages dispatched to `App`. -/
inductive Action where
  | NowPlayingUpdated (ctx : Option CurrentPlaybackContext)
  | PlaylistsLoaded (playlists : List SimplifiedPlaylist)
  | PlaylistTracksLoaded (tracks : List FullTrack)
  | SearchResultsLoaded (tracks : List FullTrack)
  | LikedSongsLoaded (songs : List SavedTrack)
  | LikeToggled (trackId : String) (isLiked : Bool)
  | Error (msg : String)
  | DevicesLoaded (devices : List Device)
  deriving DecidableEq, Repr

/-- The `App` state struct from src/app.rs, without the `io_tx` channel handle
(sends are modelled as returned event lists). `HashSet<String>` is modelled as
`Finset String`; instants are `Nat` milliseconds. -/
structure App where
  running : Bool
  screen : Screen
  inputMode : InputMode
  activePanel : Panel
  showHelp : Bool
  nowPlaying : Option CurrentPlaybackContext
  isPlaying : Bool
  volume : Nat
  playlists : List SimplifiedPlaylist
  playlistIndex : Nat
  playlistTracks : List FullTrack
  trackIndex : Nat
  selectedPlaylistId : Option String
  searchInput : String
  searchResults : List FullTrack
  searchIndex : Nat
  likedSongs : List SavedTrack
  likedIndex : Nat
  likedTrackIds : Finset String
  devices : List Device
  flashMessage : Option (String × Nat)
  loading : Bool
  tickCount : Nat
  lastPlaybackUpdate : Option Nat
  deriving DecidableEq

/-- Embedding of `App::new` (src/app.rs lines 104-132), minus the channel handle. -/
def App.new : App where
  running := true
  screen := .Library
  inputMode := .Normal
  activePanel := .Left
  showHelp := false
  nowPlaying := none
  isPlaying := false
  volume := 50
  playlists := []
  playlistIndex := 0
  playlistTracks := []
  trackIndex := 0
  selectedPlaylistId := none
  searchInput := ""
  searchResults := []
  searchIndex := 0
  likedSongs := []
  likedIndex := 0
  likedTrackIds := ∅
  devices := []
  flashMessage := none
  loading := false
  tickCount := 0
  lastPlaybackUpdate := none

/-- The rebuild of `liked_track_ids` performed by the `LikedSongsLoaded` arm of
`App::update` (src/app.rs lines 182-187): `clear()` followed by inserting the
`Some` track ids of `songs` in order. -/
def buildLikedIds (songs : List SavedTrack) : Finset String :=
  songs.foldl
    (fun acc song =>
      match song.track.id with
      | some id => insert id acc
      | none => acc)
    ∅

/-- Embedding of `App::update` (src/app.rs lines 154-207). `now` is the instant at which
the message is applied (`Instant::now()` in the two arms that read the clock).
The `* device as u8` cast in the `NowPlayingUpdated` arm is `% 256`. -/
def App.update (s : App) (now : Nat) (a : Action) : App :=
  match a with
  | .NowPlayingUpdated ctx =>
    let s :=
      match ctx with
      | some c =>
        let s := { s with isPlaying := c.isPlaying }
        match c.device.volumePercent with
        | some v => { s with volume := v % 256 }
        | none => s
      | none => s
    { s with nowPlaying := ctx, lastPlaybackUpdate := some now }
  | .PlaylistsLoaded playlists =>
    { s with playlists := playlists, playlistIndex := 0, loading := false }
  | .PlaylistTracksLoaded tracks =>
    { s with playlistTracks := tracks, trackIndex := 0, loading := false }
  | .SearchResultsLoaded tracks =>
    { s with searchResults := tracks, searchIndex := 0, loading := false }
  | .LikedSongsLoaded songs =>
    { s with likedTrackIds := buildLikedIds songs,
             likedSongs := songs, likedIndex := 0, loading := false }
  | .LikeToggled trackId isLiked =>
    if isLiked then { s with likedTrackIds := insert trackId s.likedTrackIds }
    else { s with likedTrackIds := s.likedTrackIds.erase trackId }
  | .Error msg =>
    { s with flashMessage := some (msg, now), loading := false }
  | .DevicesLoaded devices =>
    { s with devices := devices }

/-- Embedding of `App::on_tick` (src/app.rs lines 138-152). `now` is the current instant;
`instant.elapsed()` is `now - instant` (the instant was taken in the past).
Returns the updated state and the `IoEvent`s sent. The tick counter is a
`u32`, hence the wrap at `2^32`; `Duration::from_secs(5)` is 5000 ms. -/
def App.onTick (s : App) (now : Nat) : App × List IoEvent :=
  let s := { s with tickCount := (s.tickCount + 1) % 4294967296 }
  let evs := if s.tickCount % 20 = 0 then [IoEvent.FetchNowPlaying] else []
  match s.flashMessage with
  | some (_, instant) =>
    if 5000 < now - instant then ({ s with flashMessage := none }, evs)
    else (s, evs)
  | none => (s, evs)

/-- Embedding of `App::move_up` (src/app.rs lines 244-266). -/
def App.moveUp (s : App) : App :=
  match s.screen with
  | .Library =>
    if s.activePanel = Panel.Left then
      if s.playlistIndex > 0 then { s with playlistIndex := s.playlistIndex - 1 }
      else s
    else if s.trackIndex > 0 then { s with trackIndex := s.trackIndex - 1 }
    else s
  | .Search =>
    if s.searchIndex > 0 then { s with searchIndex := s.searchIndex - 1 }
    else s
  | .LikedSongs =>
    if s.likedIndex > 0 then { s with likedIndex := s.likedIndex - 1 }
    else s

/-- Embedding of `App::move_down` (src/app.rs lines 268-298). -/
def App.moveDown (s : App) : App :=
  match s.screen with
  | .Library =>
    if s.activePanel = Panel.Left then
      if ¬s.playlists.isEmpty ∧ s.playlistIndex < s.playlists.length - 1 then
        { s with playlistIndex := s.playlistIndex + 1 }
      else s
    else if ¬s.playlistTracks.isEmpty ∧ s.trackIndex < s.playlistTracks.length - 1 then
      { s with trackIndex := s.trackIndex + 1 }
    else s
  | .Search =>
    if ¬s.searchResults.isEmpty ∧ s.searchIndex < s.searchResults.length - 1 then
      { s with searchIndex := s.searchIndex + 1 }
    else s
  | .LikedSongs =>
    if ¬s.likedSongs.isEmpty ∧ s.likedIndex < s.likedSongs.length - 1 then
      { s with likedIndex := s.likedIndex + 1 }
    else s

/-- Embedding of `App::on_enter` (src/app.rs lines 307-355). Returns the updated state and
the `IoEvent`s sent. -/
def App.onEnter (s : App) : App × List IoEvent :=
  match s.screen with
  | .Library =>
    if s.activePanel = Panel.Left then
      match s.playlists.get? s.playlistIndex with
      | some playlist =>
        ({ s with selectedPlaylistId := some playlist.id,
                  loading := true,
                  activePanel := Panel.Right },
         [IoEvent.FetchPlaylistTracks playlist.id])
      | none => (s, [])
    else
      match s.selectedPlaylistId with
      | some playlistId =>
        (s, [IoEvent.PlayTrackInContext playlistId s.trackIndex])
      | none => (s, [])
  | .Search =>
    if s.inputMode = InputMode.Editing then
      let query := s.searchInput
      if query ≠ "" then
        ({ s with loading := true, inputMode := InputMode.Normal },
         [IoEvent.Search query])
      else ({ s with inputMode := InputMode.Normal }, [])
    else
      match s.searchResults.get? s.searchIndex with
      | some track =>
        match track.id with
        | some id => (s, [IoEvent.PlayTrack id])
        | none => (s, [])
      | none => (s, [])
  | .LikedSongs =>
    match s.likedSongs.get? s.likedIndex with
    | some savedTrack =>
      match savedTrack.track.id with
      | some id => (s, [IoEvent.PlayTrack id])
      | none => (s, [])
    | none => (s, [])

/-- The duration in milliseconds of a playable item, as read by
`App::interpolated_progress_ms` (src/app.rs lines 424-427). -/
def PlayableItem.durationMs : PlayableItem → Int
  | .track t => t.durationMs
  | .episode e => e.durationMs

/-- Embedding of `App::interpolated_progress_ms` (src/app.rs lines 421-440). `now` is the
current instant; `t.elapsed().as_millis() as i64` is the nonnegative integer
`now - t` (truncated `Nat` subtraction cast into `Int`). -/
def App.interpolatedProgressMs (s : App) (now : Nat) : Option (Int × Int) :=
  match s.nowPlaying with
  | none => none
  | some ctx =>
    let baseMs := ctx.progressMs.getD 0
    let durationMs := (ctx.item.map PlayableItem.durationMs).getD 0
    let elapsed : Int := (s.lastPlaybackUpdate.map fun t => ((now - t : Nat) : Int)).getD 0
    let progress := if s.isPlaying then min (baseMs + elapsed) durationMs else baseMs
    some (progress, durationMs)

/-- One run's outcomes for the remote calls a single `handle_io_event`
invocation may make (src/spotify.rs methods, treated as an opaque facade).
Each field gives the result of the corresponding `SpotifyClient` method;
`fetchNowPlaying1`/`fetchNowPlaying2` are the first and second
`fetch_now_playing` calls of an arm (an arm calls it at most twice). -/
structure ClientOutcomes where
  fetchNowPlaying1 : Except String (Option CurrentPlaybackContext)
  fetchNowPlaying2 : Except String (Option CurrentPlaybackContext)
  playPause : Bool → Except String Unit
  nextTrack : Except String Unit
  previousTrack : Except String Unit
  setVolume : Nat → Except String Unit
  fetchPlaylists : Except String (List SimplifiedPlaylist)
  fetchPlaylistTracks : String → Except String (List FullTrack)
  playTrackInContext : Except String Unit
  playTrack : Except String Unit
  searchTracks : String → Except String (List FullTrack)
  fetchLikedSongs : Except String (List SavedTrack)
  removeTrack : Except String Unit
  saveTrack : Except String Unit
  fetchDevices : Except String (List Device)

/-- The volume value the `VolumeUp` arm requests (src/main.rs lines 249-250):
`let current = ctx.device.volume_percent.unwrap_or(50) as u8;`
`let new_vol = (current + 5).min(100);` — the `as u8` cast and the `u8`
addition are the `% 256`s. -/
def volumeUpRequest (volumePercent : Option Nat) : Nat :=
  let current := volumePercent.getD 50 % 256
  min ((current + 5) % 256) 100

/-- The volume value the `VolumeDown` arm requests (src/main.rs lines 269-270):
`let current = ctx.device.volume_percent.unwrap_or(50) as u8;`
`let new_vol = current.saturating_sub(5);`. -/
def volumeDownRequest (volumePercent : Option Nat) : Nat :=
  let current := volumePercent.getD 50 % 256
  current - 5

/-- Embedding of `handle_io_event` (src/main.rs lines 200-351): resolves one `IoEvent`
into exactly one `Action`, given the outcomes of the remote calls it makes.
Settle delays (`tokio::time::sleep`) have no observable effect here. -/
def handleIoEvent (c : ClientOutcomes) (ev : IoEvent) : Action :=
  match ev with
  | .FetchNowPlaying =>
    match c.fetchNowPlaying1 with
    | .ok ctx => .NowPlayingUpdated ctx
    | .error e => .Error ("Failed to fetch playback: " ++ e)
  | .PlayPause =>
    match c.fetchNowPlaying1 with
    | .ok (some ctx) =>
      match c.playPause ctx.isPlaying with
      | .ok _ =>
        match c.fetchNowPlaying2 with
        | .ok ctx2 => .NowPlayingUpdated ctx2
        | .error e => .Error ("Failed to fetch playback: " ++ e)
      | .error e => .Error ("Playback control failed: " ++ e)
    | .ok none => .Error "No active device found"
    | .error e => .Error ("Failed to fetch playback: " ++ e)
  | .NextTrack =>
    match c.nextTrack with
    | .ok _ =>
      match c.fetchNowPlaying1 with
      | .ok ctx => .NowPlayingUpdated ctx
      | .error e => .Error ("Failed to fetch playback: " ++ e)
    | .error e => .Error ("Next track failed: " ++ e)
  | .PreviousTrack =>
    match c.previousTrack with
    | .ok _ =>
      match c.fetchNowPlaying1 with
      | .ok ctx => .NowPlayingUpdated ctx
      | .error e => .Error ("Failed to fetch playback: " ++ e)
    | .error e => .Error ("Previous track failed: " ++ e)
  | .VolumeUp =>
    match c.fetchNowPlaying1 with
    | .ok (some ctx) =>
      match c.setVolume (volumeUpRequest ctx.device.volumePercent) with
      | .ok _ =>
        match c.fetchNowPlaying2 with
        | .ok ctx2 => .NowPlayingUpdated ctx2
        | .error e => .Error e
      | .error e => .Error ("Volume change failed: " ++ e)
    | .ok none => .Error "No active device"
    | .error e => .Error e
  | .VolumeDown =>
    match c.fetchNowPlaying1 with
    | .ok (some ctx) =>
      match c.setVolume (volumeDownRequest ctx.device.volumePercent) with
      | .ok _ =>
        match c.fetchNowPlaying2 with
        | .ok ctx2 => .NowPlayingUpdated ctx2
        | .error e => .Error e
      | .error e => .Error ("Volume change failed: " ++ e)
    | .ok none => .Error "No active device"
    | .error e => .Error e
  | .FetchPlaylists =>
    match c.fetchPlaylists with
    | .ok playlists => .PlaylistsLoaded playlists
    | .error e => .Error ("Failed to fetch playlists: " ++ e)
  | .FetchPlaylistTracks id =>
    match c.fetchPlaylistTracks id with
    | .ok tracks => .PlaylistTracksLoaded tracks
    | .error e => .Error ("Failed to fetch tracks: " ++ e)
  | .PlayTrackInContext _ _ =>
    match c.playTrackInContext with
    | .ok _ =>
      match c.fetchNowPlaying1 with
      | .ok ctx => .NowPlayingUpdated ctx
      | .error e => .Error e
    | .error e => .Error ("Failed to play track: " ++ e)
  | .PlayTrack _ =>
    match c.playTrack with
    | .ok _ =>
      match c.fetchNowPlaying1 with
      | .ok ctx => .NowPlayingUpdated ctx
      | .error e => .Error e
    | .error e => .Error ("Failed to play track: " ++ e)
  | .Search query =>
    match c.searchTracks query with
    | .ok tracks => .SearchResultsLoaded tracks
    | .error e => .Error ("Search failed: " ++ e)
  | .FetchLikedSongs =>
    match c.fetchLikedSongs with
    | .ok songs => .LikedSongsLoaded songs
    | .error e => .Error ("Failed to fetch liked songs: " ++ e)
  | .ToggleLike trackId currentlyLiked =>
    if currentlyLiked then
      match c.removeTrack with
      | .ok _ => .LikeToggled trackId false
      | .error e => .Error ("Failed to unlike: " ++ e)
    else
      match c.saveTrack with
      | .ok _ => .LikeToggled trackId true
      | .error e => .Error ("Failed to like: " ++ e)
  | .FetchDevices =>
    match c.fetchDevices with
    | .ok devices => .DevicesLoaded devices
    | .error e => .Error ("Failed to fetch devices: " ++ e)

/-- Whether a remote-call outcome is a success. -/
def isOk {α : Type} : Except String α → Bool
  | .ok _ => true
  | .error _ => false

/-- Whether every remote call made by the `handle_io_event` arm for `ev`
succeeds, an active device being present where the arm requires one
(`Ok(None)` from the playback fetch is the no-active-device failure case,
spec section 7 case b). Mirrors the call structure of src/main.rs 200-351. -/
def callsSucceed (c : ClientOutcomes) : IoEvent → Bool
  | .FetchNowPlaying => isOk c.fetchNowPlaying1
  | .PlayPause =>
    match c.fetchNowPlaying1 with
    | .ok (some ctx) =>
      isOk (c.playPause ctx.isPlaying) && isOk c.fetchNowPlaying2
    | _ => false
  | .NextTrack => isOk c.nextTrack && isOk c.fetchNowPlaying1
  | .PreviousTrack => isOk c.previousTrack && isOk c.fetchNowPlaying1
  | .VolumeUp =>
    match c.fetchNowPlaying1 with
    | .ok (some ctx) =>
      isOk (c.setVolume (volumeUpRequest ctx.device.volumePercent)) &&
        isOk c.fetchNowPlaying2
    | _ => false
  | .VolumeDown =>
    match c.fetchNowPlaying1 with
    | .ok (some ctx) =>
      isOk (c.setVolume (volumeDownRequest ctx.device.volumePercent)) &&
        isOk c.fetchNowPlaying2
    | _ => false
  | .FetchPlaylists => isOk c.fetchPlaylists
  | .FetchPlaylistTracks id => isOk (c.fetchPlaylistTracks id)
  | .PlayTrackInContext _ _ => isOk c.playTrackInContext && isOk c.fetchNowPlaying1
  | .PlayTrack _ => isOk c.playTrack && isOk c.fetchNowPlaying1
  | .Search q => isOk (c.searchTracks q)
  | .FetchLikedSongs => isOk c.fetchLikedSongs
  | .ToggleLike _ b => if b then isOk c.removeTrack else isOk c.saveTrack
  | .FetchDevices => isOk c.fetchDevices

/-- The statement that `a` is the success resolution of the request `ev`:
the corresponding "Loaded/Updated/Toggled" variant, carrying exactly the
payload the remote calls returned (for transport/volume/play arms, the
post-action re-fetch of now-playing; for a like toggle, the toggled state of
the given track id). -/
def successFor (c : ClientOutcomes) : IoEvent → Action → Prop
  | .FetchNowPlaying, .NowPlayingUpdated x => c.fetchNowPlaying1 = .ok x
  | .PlayPause, .NowPlayingUpdated x => c.fetchNowPlaying2 = .ok x
  | .NextTrack, .NowPlayingUpdated x => c.fetchNowPlaying1 = .ok x
  | .PreviousTrack, .NowPlayingUpdated x => c.fetchNowPlaying1 = .ok x
  | .VolumeUp, .NowPlayingUpdated x => c.fetchNowPlaying2 = .ok x
  | .VolumeDown, .NowPlayingUpdated x => c.fetchNowPlaying2 = .ok x
  | .PlayTrackInContext _ _, .NowPlayingUpdated x => c.fetchNowPlaying1 = .ok x
  | .PlayTrack _, .NowPlayingUpdated x => c.fetchNowPlaying1 = .ok x
  | .FetchPlaylists, .PlaylistsLoaded x => c.fetchPlaylists = .ok x
  | .FetchPlaylistTracks id, .PlaylistTracksLoaded x =>
    c.fetchPlaylistTracks id = .ok x
  | .Search q, .SearchResultsLoaded x => c.searchTracks q = .ok x
  | .FetchLikedSongs, .LikedSongsLoaded x => c.fetchLikedSongs = .ok x
  | .ToggleLike tid b, .LikeToggled tid2 isLiked => tid2 = tid ∧ isLiked = !b
  | .FetchDevices, .DevicesLoaded x => c.fetchDevices = .ok x
  | _, _ => False

/-- Client outcomes in which every remote call succeeds (with empty/`none`
payloads). -/
def okOutcomes : ClientOutcomes where
  fetchNowPlaying1 := .ok none
  fetchNowPlaying2 := .ok none
  playPause := fun _ => .ok ()
  nextTrack := .ok ()
  previousTrack := .ok ()
  setVolume := fun _ => .ok ()
  fetchPlaylists := .ok []
  fetchPlaylistTracks := fun _ => .ok []
  playTrackInContext := .ok ()
  playTrack := .ok ()
  searchTracks := fun _ => .ok []
  fetchLikedSongs := .ok []
  removeTrack := .ok ()
  saveTrack := .ok ()
  fetchDevices := .ok []

/-- Outcomes `okOutcomes` with the playlist fetch failing. -/
def errOutcomes : ClientOutcomes :=
  { okOutcomes with fetchPlaylists := .error "network down" }

/-- A fresh `App` observing a playing snapshot: progress 10000 ms, duration
200000 ms, `is_playing = true`, received at instant 0. -/
def playingApp : App :=
  { App.new with
      nowPlaying := some
        { device := { volumePercent := some 50 },
          isPlaying := true,
          progressMs := some 10000,
          item := some (.track { id := some "t1", durationMs := 200000 }) },
      isPlaying := true,
      lastPlaybackUpdate := some 0 }

/-- State `playingApp` with the `is_playing` flag off. -/
def pausedApp : App := { playingApp with isPlaying := false }

/-- A list-navigation input: `move_up` or `move_down` (the `k`/`j` and
arrow-key bindings of src/main.rs lines 157-162). -/
inductive Move where
  | up
  | down
  deriving DecidableEq, Repr

/-- Apply one list-navigation input. -/
def App.applyMove (s : App) : Move → App
  | .up => s.moveUp
  | .down => s.moveDown

/-- Apply a sequence of list-navigation inputs, in order. -/
def App.applyMoves (s : App) (ms : List Move) : App :=
  ms.foldl App.applyMove s

/-- The spec's validity condition for one selected index: within
`[0, len-1]` when `len > 0`, and exactly `0` when `len = 0`. -/
def selInv (idx len : Nat) : Prop :=
  (len = 0 ∧ idx = 0) ∨ idx < len

/-- The spec's selected-index invariant over the four list/index pairs of
`App`: playlists, playlist tracks, search results, liked songs. -/
def navInv (s : App) : Prop :=
  selInv s.playlistIndex s.playlists.length ∧
  selInv s.trackIndex s.playlistTracks.length ∧
  selInv s.searchIndex s.searchResults.length ∧
  selInv s.likedIndex s.likedSongs.length

/-- A fresh `App` whose playlist list holds exactly one playlist. -/
def singlePlaylistApp : App :=
  { App.new with playlists := [⟨"A", "Playlist A"⟩] }

/-- A fresh `App` whose playlist list holds exactly the two playlists
`"A"` and `"B"` of the spec's scenario. -/
def twoPlaylistApp : App :=
  { App.new with playlists := [⟨"A", "A"⟩, ⟨"B", "B"⟩] }

theorem update_loading_nowPlayingUpdated (s : App) (now : Nat)
    (octx : Option CurrentPlaybackContext) :
    (s.update now (.NowPlayingUpdated octx)).loading = s.loading := by
  cases octx with
  | none => rfl
  | some c =>
    cases h : c.device.volumePercent <;> simp [App.update, h]

theorem update_loading_likeToggled (s : App) (now : Nat) (tid : String) (b : Bool) :
    (s.update now (.LikeToggled tid b)).loading = s.loading := by
  cases b <;> rfl

/-- C7: the screen cycle is a closed three-element ring
Library → Search → LikedSongs → Library: `next` applied three times is the
identity, `prev` applied three times is the identity, and `prev` undoes
`next`. -/
theorem screen_cycle_ring (s : Screen) :
    s.next.next.next = s ∧ s.prev.prev.prev = s ∧ s.next.prev = s := by
  cases s <;> exact ⟨rfl, rfl, rfl⟩

/-- C6: with the current device volume `v` in `[0,100]`, the `VolumeUp` arm
requests exactly `min (v+5) 100` and the `VolumeDown` arm requests exactly
`v - 5` (saturating at 0); both requested values stay in `[0,100]`. -/
theorem volume_request_clamped (v : Nat) (hv : v ≤ 100) :
    volumeUpRequest (some v) = min (v + 5) 100 ∧
    volumeDownRequest (some v) = v - 5 ∧
    volumeUpRequest (some v) ≤ 100 ∧
    volumeDownRequest (some v) ≤ 100 := by
  simp only [volumeUpRequest, volumeDownRequest, Option.getD_some]
  omega

theorem volume_request_clamped_witness :
    (98 ≤ 100 ∧ volumeUpRequest (some 98) = min (98 + 5) 100 ∧
      volumeDownRequest (some 98) = 98 - 5 ∧
      volumeUpRequest (some 98) ≤ 100 ∧ volumeDownRequest (some 98) ≤ 100) ∧
    (3 ≤ 100 ∧ volumeUpRequest (some 3) = min (3 + 5) 100 ∧
      volumeDownRequest (some 3) = 3 - 5 ∧
      volumeUpRequest (some 3) ≤ 100 ∧ volumeDownRequest (some 3) ≤ 100) :=
  ⟨⟨by decide, volume_request_clamped 98 (by decide)⟩,
   ⟨by decide, volume_request_clamped 3 (by decide)⟩⟩

theorem mem_foldl_insert_liked (songs : List SavedTrack) (acc : Finset String)
    (id : String) :
    (id ∈ songs.foldl
        (fun acc song =>
          match song.track.id with
          | some i => insert i acc
          | none => acc) acc) ↔
      id ∈ acc ∨ ∃ t ∈ songs, t.track.id = some id := by
  induction songs generalizing acc with
  | nil => simp
  | cons hd tl ih =>
    rw [List.foldl_cons, ih]
    cases h : hd.track.id with
    | none =>
      simp only [List.mem_cons]
      constructor
      · rintro (hacc | ⟨t, htl, hid⟩)
        · exact Or.inl hacc
        · exact Or.inr ⟨t, Or.inr htl, hid⟩
      · rintro (hacc | ⟨t, (rfl | htl), hid⟩)
        · exact Or.inl hacc
        · rw [h] at hid; cases hid
        · exact Or.inr ⟨t, htl, hid⟩
    | some i =>
      simp only [Finset.mem_insert, List.mem_cons]
      constructor
      · rintro ((rfl | hacc) | ⟨t, htl, hid⟩)
        · exact Or.inr ⟨hd, Or.inl rfl, h⟩
        · exact Or.inl hacc
        · exact Or.inr ⟨t, Or.inr htl, hid⟩
      · rintro (hacc | ⟨t, (rfl | htl), hid⟩)
        · exact Or.inl (Or.inr hacc)
        · rw [h] at hid
          exact Or.inl (Or.inl (Option.some_injective _ hid).symm)
        · exact Or.inr ⟨t, htl, hid⟩

/-- C8: applying `LikedSongsLoaded songs` rebuilds the liked-track-id set to
be exactly the set of `Some` track ids occurring in `songs`, independently of
the previous set; in particular two applications with identical song data
yield identical liked-id sets regardless of the starting states. -/
theorem liked_ids_rebuilt (s : App) (now : Nat) (songs : List SavedTrack) :
    (∀ id, id ∈ (s.update now (.LikedSongsLoaded songs)).likedTrackIds ↔
      ∃ t ∈ songs, t.track.id = some id) ∧
    ∀ (s2 : App) (now2 : Nat),
      (s.update now (.LikedSongsLoaded songs)).likedTrackIds =
        (s2.update now2 (.LikedSongsLoaded songs)).likedTrackIds := by
  constructor
  · intro id
    simpa [App.update, buildLikedIds] using
      mem_foldl_insert_liked songs ∅ id
  · intro s2 now2
    rfl

/-- C10: applying `NowPlayingUpdated none` sets the stored snapshot to `none`
and refreshes the last-snapshot instant while leaving every other field —
`is_playing` and the tracked volume included — unchanged; and no action other
than a `NowPlayingUpdated (some _)` ever changes `is_playing` or the tracked
volume. -/
theorem now_playing_none_frame (s : App) (now : Nat) :
    s.update now (.NowPlayingUpdated none) =
      { s with nowPlaying := none, lastPlaybackUpdate := some now } ∧
    ∀ a, (∀ ctx, a ≠ Action.NowPlayingUpdated (some ctx)) →
      (s.update now a).isPlaying = s.isPlaying ∧
      (s.update now a).volume = s.volume := by
  refine ⟨rfl, ?_⟩
  intro a ha
  cases a with
  | NowPlayingUpdated octx =>
    cases octx with
    | none => exact ⟨rfl, rfl⟩
    | some c => exact absurd rfl (ha c)
  | LikeToggled tid b => cases b <;> exact ⟨rfl, rfl⟩
  | PlaylistsLoaded x => exact ⟨rfl, rfl⟩
  | PlaylistTracksLoaded x => exact ⟨rfl, rfl⟩
  | SearchResultsLoaded x => exact ⟨rfl, rfl⟩
  | LikedSongsLoaded x => exact ⟨rfl, rfl⟩
  | Error m => exact ⟨rfl, rfl⟩
  | DevicesLoaded d => exact ⟨rfl, rfl⟩

/-- C1: with a now-playing snapshot whose base progress `p` satisfies
`0 ≤ p ≤ d` (`d` the current item's duration) received at instant `t0`, the
interpolated displayed progress `e` milliseconds later is `min (p + e) d`
when `is_playing` is true and exactly `p` when it is false, and in both
cases it lies in `[0, d]`. -/
theorem interpolated_progress_correct (s : App) (ctx : CurrentPlaybackContext)
    (item : PlayableItem) (p d : Int) (t0 e : Nat)
    (hnp : s.nowPlaying = some ctx) (hprog : ctx.progressMs = some p)
    (hitem : ctx.item = some item) (hdur : item.durationMs = d)
    (hlast : s.lastPlaybackUpdate = some t0)
    (hp0 : 0 ≤ p) (hpd : p ≤ d) :
    s.interpolatedProgressMs (t0 + e) =
      some ((if s.isPlaying then min (p + (e : Int)) d else p), d) ∧
    ∀ pr dd, s.interpolatedProgressMs (t0 + e) = some (pr, dd) →
      0 ≤ pr ∧ pr ≤ d := by
  have heq : s.interpolatedProgressMs (t0 + e) =
      some ((if s.isPlaying then min (p + (e : Int)) d else p), d) := by
    simp [App.interpolatedProgressMs, hnp, hprog, hitem, hlast, hdur,
      Nat.add_sub_cancel_left]
  refine ⟨heq, ?_⟩
  intro pr dd hpr
  rw [heq] at hpr
  simp only [Option.some.injEq, Prod.mk.injEq] at hpr
  obtain ⟨hpr1, hpr2⟩ := hpr
  subst hpr1
  have he : (0 : Int) ≤ (e : Int) := Int.ofNat_nonneg e
  split <;> omega

theorem interpolated_progress_correct_witness :
    playingApp.interpolatedProgressMs 3000 = some (13000, 200000) ∧
    pausedApp.interpolatedProgressMs 3000 = some (10000, 200000) := by
  have h1 := interpolated_progress_correct playingApp _ _ 10000 200000 0 3000
    rfl rfl rfl rfl rfl (by norm_num) (by norm_num)
  have h2 := interpolated_progress_correct pausedApp _ _ 10000 200000 0 3000
    rfl rfl rfl rfl rfl (by norm_num) (by norm_num)
  exact ⟨h1.1.trans (by decide), h2.1.trans (by decide)⟩

theorem navInv_moveUp (s : App) (h : navInv s) : navInv s.moveUp := by
  obtain ⟨h1, h2, h3, h4⟩ := h
  simp only [selInv] at h1 h2 h3 h4
  unfold App.moveUp
  repeat' split
  all_goals dsimp only [navInv, selInv]
  all_goals omega

theorem navInv_moveDown (s : App) (h : navInv s) : navInv s.moveDown := by
  obtain ⟨h1, h2, h3, h4⟩ := h
  simp only [selInv] at h1 h2 h3 h4
  unfold App.moveDown
  repeat' split
  all_goals dsimp only [navInv, selInv]
  all_goals omega

theorem navInv_applyMoves (s : App) (ms : List Move) (h : navInv s) :
    navInv (s.applyMoves ms) := by
  induction ms generalizing s with
  | nil => exact h
  | cons m tl ih =>
    cases m with
    | up => exact ih _ (navInv_moveUp s h)
    | down => exact ih _ (navInv_moveDown s h)

/-- C2: from any state whose four selected indices are valid (within
`[0, len-1]` for non-empty lists, `0` for empty ones), any sequence of
`move_up`/`move_down` inputs preserves that validity; and each
list-replacing `Loaded` update resets the corresponding index to 0. -/
theorem selected_index_invariant (s : App) (ms : List Move) (h : navInv s) :
    navInv (s.applyMoves ms) ∧
    (∀ (now : Nat) (x : List SimplifiedPlaylist),
      (s.update now (.PlaylistsLoaded x)).playlistIndex = 0) ∧
    (∀ (now : Nat) (x : List FullTrack),
      (s.update now (.PlaylistTracksLoaded x)).trackIndex = 0) ∧
    (∀ (now : Nat) (x : List FullTrack),
      (s.update now (.SearchResultsLoaded x)).searchIndex = 0) ∧
    (∀ (now : Nat) (x : List SavedTrack),
      (s.update now (.LikedSongsLoaded x)).likedIndex = 0) :=
  ⟨navInv_applyMoves s ms h,
   fun _ _ => rfl, fun _ _ => rfl, fun _ _ => rfl, fun _ _ => rfl⟩

theorem selected_index_invariant_witness :
    navInv App.new ∧ navInv (App.new.applyMoves [Move.down, Move.up]) ∧
    (App.new.update 0 (.PlaylistsLoaded [⟨"A", "A"⟩])).playlistIndex = 0 := by
  have hinv : navInv App.new := by
    refine ⟨?_, ?_, ?_, ?_⟩ <;> exact Or.inl ⟨rfl, rfl⟩
  have h := selected_index_invariant App.new [Move.down, Move.up] hinv
  exact ⟨hinv, h.1, h.2.1 0 [⟨"A", "A"⟩]⟩

/-- C3, counterexample: applying `NowPlayingUpdated` while the loading flag
is set leaves it set — the `NowPlayingUpdated` arm (like `DevicesLoaded`)
does not clear `loading`, contradicting the claim that every data-carrying
success update leaves `loading = false`. -/
theorem nowplaying_keeps_loading_cx :
    (({ App.new with loading := true } : App).update 0
        (Action.NowPlayingUpdated none)).loading = true := rfl

/-- C3, amended: `update` clears the loading flag on the four list-loading
successes (playlists, playlist tracks, search results, liked songs) and on
`Error`; `NowPlayingUpdated`, `DevicesLoaded` and `LikeToggled` leave it
unchanged; and no update ever sets it to true. -/
theorem update_loading_clearing (s : App) (now : Nat) (a : Action) :
    (((∃ x, a = Action.PlaylistsLoaded x) ∨
      (∃ x, a = Action.PlaylistTracksLoaded x) ∨
      (∃ x, a = Action.SearchResultsLoaded x) ∨
      (∃ x, a = Action.LikedSongsLoaded x) ∨
      (∃ m, a = Action.Error m)) →
      (s.update now a).loading = false) ∧
    (((∃ x, a = Action.NowPlayingUpdated x) ∨
      (∃ x, a = Action.DevicesLoaded x) ∨
      (∃ t b, a = Action.LikeToggled t b)) →
      (s.update now a).loading = s.loading) ∧
    ((s.update now a).loading = true → s.loading = true) := by
  refine ⟨?_, ?_, ?_⟩
  · rintro (⟨x, rfl⟩ | ⟨x, rfl⟩ | ⟨x, rfl⟩ | ⟨x, rfl⟩ | ⟨m, rfl⟩) <;> rfl
  · rintro (⟨x, rfl⟩ | ⟨x, rfl⟩ | ⟨t, b, rfl⟩)
    · exact update_loading_nowPlayingUpdated s now x
    · rfl
    · exact update_loading_likeToggled s now t b
  · intro h
    cases a with
    | NowPlayingUpdated octx =>
      rw [update_loading_nowPlayingUpdated] at h; exact h
    | LikeToggled tid b =>
      rw [update_loading_likeToggled] at h; exact h
    | DevicesLoaded d => exact h
    | PlaylistsLoaded x => simp [App.update] at h
    | PlaylistTracksLoaded x => simp [App.update] at h
    | SearchResultsLoaded x => simp [App.update] at h
    | LikedSongsLoaded x => simp [App.update] at h
    | Error m => simp [App.update] at h

theorem update_loading_clearing_witness :
    (({ App.new with loading := true } : App).update 0
        (Action.Error "boom")).loading = false ∧
    (({ App.new with loading := true } : App).update 0
        (Action.NowPlayingUpdated none)).loading
      = ({ App.new with loading := true } : App).loading ∧
    (({ App.new with loading := true } : App).update 0
        (Action.DevicesLoaded [])).loading
      = ({ App.new with loading := true } : App).loading ∧
    (({ App.new with loading := true } : App).update 0
        (Action.LikeToggled "t" true)).loading
      = ({ App.new with loading := true } : App).loading :=
  ⟨(update_loading_clearing { App.new with loading := true } 0
      (Action.Error "boom")).1
      (Or.inr (Or.inr (Or.inr (Or.inr ⟨"boom", rfl⟩)))),
   (update_loading_clearing { App.new with loading := true } 0
      (Action.NowPlayingUpdated none)).2.1 (Or.inl ⟨none, rfl⟩),
   (update_loading_clearing { App.new with loading := true } 0
      (Action.DevicesLoaded [])).2.1 (Or.inr (Or.inl ⟨[], rfl⟩)),
   (update_loading_clearing { App.new with loading := true } 0
      (Action.LikeToggled "t" true)).2.1
      (Or.inr (Or.inr ⟨"t", true, rfl⟩))⟩

/-- C4: applying `Error msg` at instant `now` clears the loading flag and
sets the (single, last-write-wins) flash message to `(msg, now)` whatever was
shown before; a later `on_tick` clears the flash exactly when more than
5000 ms have elapsed since `now`, and keeps it otherwise. -/
theorem error_update_flash (s : App) (msg : String) (now later : Nat) :
    (s.update now (.Error msg)).loading = false ∧
    (s.update now (.Error msg)).flashMessage = some (msg, now) ∧
    (5000 < later - now →
      ((s.update now (.Error msg)).onTick later).1.flashMessage = none) ∧
    (later - now ≤ 5000 →
      ((s.update now (.Error msg)).onTick later).1.flashMessage
        = some (msg, now)) := by
  refine ⟨rfl, rfl, ?_, ?_⟩
  · intro h
    simp [App.update, App.onTick, h]
  · intro h
    have hn : ¬5000 < later - now := by omega
    simp [App.update, App.onTick, hn]

theorem error_update_flash_witness :
    ((App.new.update 0 (.Error "boom")).onTick 6000).1.flashMessage = none ∧
    ((App.new.update 0 (.Error "boom")).onTick 3000).1.flashMessage
      = some ("boom", 0) :=
  ⟨(error_update_flash App.new "boom" 0 6000).2.2.1 (by norm_num),
   (error_update_flash App.new "boom" 0 3000).2.2.2 (by norm_num)⟩

/-- C5: the dispatcher is total and outcome-directed — for every request and
every combination of remote-call outcomes, `handle_io_event` returns exactly
one action: when every remote call of the arm succeeds (with an active device
where one is required) the result is the success variant corresponding to
the request, carrying exactly the payload the calls returned; when any call
fails (or no active device is found) the result is an `Error` message; no
failure escapes the dispatcher. -/
theorem dispatcher_total_resolution (c : ClientOutcomes) (ev : IoEvent) :
    (callsSucceed c ev = true → successFor c ev (handleIoEvent c ev)) ∧
    (callsSucceed c ev = false → ∃ m, handleIoEvent c ev = Action.Error m) := by
  cases ev with
  | FetchNowPlaying =>
    rcases hf : c.fetchNowPlaying1 with e | octx <;>
      simp [handleIoEvent, successFor, callsSucceed, isOk, hf]
  | PlayPause =>
    rcases hf : c.fetchNowPlaying1 with e | octx
    · simp [handleIoEvent, successFor, callsSucceed, isOk, hf]
    · cases octx with
      | none => simp [handleIoEvent, successFor, callsSucceed, isOk, hf]
      | some ctx =>
        rcases hp : c.playPause ctx.isPlaying with e | u
        · simp [handleIoEvent, successFor, callsSucceed, isOk, hf, hp]
        · rcases hf2 : c.fetchNowPlaying2 with e | octx2 <;>
            simp [handleIoEvent, successFor, callsSucceed, isOk, hf, hp, hf2]
  | NextTrack =>
    rcases hn : c.nextTrack with e | u
    · simp [handleIoEvent, successFor, callsSucceed, isOk, hn]
    · rcases hf : c.fetchNowPlaying1 with e | octx <;>
        simp [handleIoEvent, successFor, callsSucceed, isOk, hn, hf]
  | PreviousTrack =>
    rcases hn : c.previousTrack with e | u
    · simp [handleIoEvent, successFor, callsSucceed, isOk, hn]
    · rcases hf : c.fetchNowPlaying1 with e | octx <;>
        simp [handleIoEvent, successFor, callsSucceed, isOk, hn, hf]
  | VolumeUp =>
    rcases hf : c.fetchNowPlaying1 with e | octx
    · simp [handleIoEvent, successFor, callsSucceed, isOk, hf]
    · cases octx with
      | none => simp [handleIoEvent, successFor, callsSucceed, isOk, hf]
      | some ctx =>
        rcases hs : c.setVolume (volumeUpRequest ctx.device.volumePercent)
            with e | u
        · simp [handleIoEvent, successFor, callsSucceed, isOk, hf, hs]
        · rcases hf2 : c.fetchNowPlaying2 with e | octx2 <;>
            simp [handleIoEvent, successFor, callsSucceed, isOk, hf, hs, hf2]
  | VolumeDown =>
    rcases hf : c.fetchNowPlaying1 with e | octx
    · simp [handleIoEvent, successFor, callsSucceed, isOk, hf]
    · cases octx with
      | none => simp [handleIoEvent, successFor, callsSucceed, isOk, hf]
      | some ctx =>
        rcases hs : c.setVolume (volumeDownRequest ctx.device.volumePercent)
            with e | u
        · simp [handleIoEvent, successFor, callsSucceed, isOk, hf, hs]
        · rcases hf2 : c.fetchNowPlaying2 with e | octx2 <;>
            simp [handleIoEvent, successFor, callsSucceed, isOk, hf, hs, hf2]
  | FetchPlaylists =>
    rcases hp : c.fetchPlaylists with e | x <;>
      simp [handleIoEvent, successFor, callsSucceed, isOk, hp]
  | FetchPlaylistTracks id =>
    rcases hp : c.fetchPlaylistTracks id with e | x <;>
      simp [handleIoEvent, successFor, callsSucceed, isOk, hp]
  | PlayTrackInContext uri off =>
    rcases hp : c.playTrackInContext with e | u
    · simp [handleIoEvent, successFor, callsSucceed, isOk, hp]
    · rcases hf : c.fetchNowPlaying1 with e | octx <;>
        simp [handleIoEvent, successFor, callsSucceed, isOk, hp, hf]
  | PlayTrack uri =>
    rcases hp : c.playTrack with e | u
    · simp [handleIoEvent, successFor, callsSucceed, isOk, hp]
    · rcases hf : c.fetchNowPlaying1 with e | octx <;>
        simp [handleIoEvent, successFor, callsSucceed, isOk, hp, hf]
  | Search query =>
    rcases hq : c.searchTracks query with e | x <;>
      simp [handleIoEvent, successFor, callsSucceed, isOk, hq]
  | FetchLikedSongs =>
    rcases hl : c.fetchLikedSongs with e | x <;>
      simp [handleIoEvent, successFor, callsSucceed, isOk, hl]
  | ToggleLike tid b =>
    cases b with
    | true =>
      rcases hr : c.removeTrack with e | u <;>
        simp [handleIoEvent, successFor, callsSucceed, isOk, hr]
    | false =>
      rcases hr : c.saveTrack with e | u <;>
        simp [handleIoEvent, successFor, callsSucceed, isOk, hr]
  | FetchDevices =>
    rcases hd : c.fetchDevices with e | x <;>
      simp [handleIoEvent, successFor, callsSucceed, isOk, hd]

theorem dispatcher_total_resolution_witness :
    (callsSucceed okOutcomes IoEvent.FetchPlaylists = true ∧
      successFor okOutcomes IoEvent.FetchPlaylists
        (handleIoEvent okOutcomes IoEvent.FetchPlaylists)) ∧
    (callsSucceed errOutcomes IoEvent.FetchPlaylists = false ∧
      ∃ m, handleIoEvent errOutcomes IoEvent.FetchPlaylists
        = Action.Error m) :=
  ⟨⟨rfl, (dispatcher_total_resolution okOutcomes IoEvent.FetchPlaylists).1 rfl⟩,
   ⟨rfl, (dispatcher_total_resolution errOutcomes IoEvent.FetchPlaylists).2 rfl⟩⟩

/-- C9, counterexample: the claim quantifies over all non-empty playlist
lists, but with exactly one playlist a down input leaves the selection at
index 0 (there is no index 1 to move to), not 1. -/
theorem library_down_singleton_cx :
    singlePlaylistApp.screen = Screen.Library ∧
    singlePlaylistApp.activePanel = Panel.Left ∧
    singlePlaylistApp.playlists ≠ [] ∧
    singlePlaylistApp.playlistIndex = 0 ∧
    singlePlaylistApp.moveDown.playlistIndex = 0 := by
  refine ⟨rfl, rfl, ?_, rfl, ?_⟩
  · simp [singlePlaylistApp, App.new]
  · rfl

/-- C9, amended: on the Library screen with the Left panel active, selection
at index 0 and at least two playlists, a down input moves the selection to
index 1, and Enter then records the highlighted playlist's id, sets loading,
emits exactly one `FetchPlaylistTracks` request for that id and switches the
panel to Right; loading stays true under updates that are not fetch
completions and is cleared by `PlaylistTracksLoaded` (or `Error`). -/
theorem library_enter_flow (s : App) (pl : SimplifiedPlaylist)
    (hscreen : s.screen = Screen.Library) (hpanel : s.activePanel = Panel.Left)
    (hidx : s.playlistIndex = 0) (hlen : 2 ≤ s.playlists.length)
    (hget : s.playlists.get? 1 = some pl) :
    s.moveDown.playlistIndex = 1 ∧
    (s.moveDown.onEnter).1.selectedPlaylistId = some pl.id ∧
    (s.moveDown.onEnter).1.loading = true ∧
    (s.moveDown.onEnter).1.activePanel = Panel.Right ∧
    (s.moveDown.onEnter).2 = [IoEvent.FetchPlaylistTracks pl.id] ∧
    (∀ (now : Nat) (ts : List FullTrack),
      ((s.moveDown.onEnter).1.update now
        (.PlaylistTracksLoaded ts)).loading = false) ∧
    (∀ (now : Nat) (m : String),
      ((s.moveDown.onEnter).1.update now (.Error m)).loading = false) ∧
    (∀ (now : Nat) (octx : Option CurrentPlaybackContext),
      ((s.moveDown.onEnter).1.update now
        (.NowPlayingUpdated octx)).loading = true) ∧
    (∀ (now : Nat) (ds : List Device),
      ((s.moveDown.onEnter).1.update now (.DevicesLoaded ds)).loading = true) ∧
    (∀ (now : Nat) (tid : String) (b : Bool),
      ((s.moveDown.onEnter).1.update now (.LikeToggled tid b)).loading
        = true) := by
  have hne : ¬s.playlists.isEmpty = true := by
    rw [List.isEmpty_iff_length_eq_zero]
    omega
  have hmd : s.moveDown = { s with playlistIndex := 1 } := by
    unfold App.moveDown
    rw [hscreen]
    rw [if_pos hpanel, if_pos ⟨hne, by omega⟩, hidx]
  have hoe : s.moveDown.onEnter =
      ({ s with playlistIndex := 1, selectedPlaylistId := some pl.id,
                loading := true, activePanel := Panel.Right },
       [IoEvent.FetchPlaylistTracks pl.id]) := by
    rw [hmd]
    unfold App.onEnter
    dsimp only
    rw [hscreen]
    rw [if_pos hpanel, hget]
  refine ⟨by rw [hmd], ?_, ?_, ?_, ?_, ?_, ?_, ?_, ?_, ?_⟩ <;>
    simp only [hoe] <;> intros <;>
    first
      | rfl
      | rw [update_loading_nowPlayingUpdated]
      | rw [update_loading_likeToggled]

theorem library_enter_flow_witness :
    twoPlaylistApp.moveDown.playlistIndex = 1 ∧
    (twoPlaylistApp.moveDown.onEnter).1.selectedPlaylistId = some "B" ∧
    (twoPlaylistApp.moveDown.onEnter).1.loading = true ∧
    (twoPlaylistApp.moveDown.onEnter).1.activePanel = Panel.Right ∧
    (twoPlaylistApp.moveDown.onEnter).2 = [IoEvent.FetchPlaylistTracks "B"] := by
  have h := library_enter_flow twoPlaylistApp ⟨"B", "B"⟩ rfl rfl rfl
    (by norm_num [twoPlaylistApp, App.new]) rfl
  exact ⟨h.1, h.2.1, h.2.2.1, h.2.2.2.1, h.2.2.2.2.1⟩

theorem now_playing_none_frame_witness :
    App.new.update 7 (.NowPlayingUpdated none) =
      { App.new with nowPlaying := none, lastPlaybackUpdate := some 7 } ∧
    (App.new.update 7 (Action.Error "boom")).isPlaying = App.new.isPlaying ∧
    (App.new.update 7 (Action.Error "boom")).volume = App.new.volume := by
  have h := now_playing_none_frame App.new 7
  exact ⟨h.1, h.2 (Action.Error "boom") (fun ctx => nofun)⟩

end Crabify
